import Mathlib

/-!
Verification of the process-monitor unit (`crates/runc/src/monitor.rs`).

The Rust unit defines a trait `ProcessMonitor` with two default async
methods, `start` and `wait`, communicating through a caller-supplied
tokio oneshot channel; a stateless `DefaultMonitor` implementing the
trait with no overrides; and an `Exit` record `{ts, pid, status}`.

Shallow embedding choices:
* OS interactions (spawn, wait-with-output, the wall clock) are an
  explicit environment record `OsEnv`; `start` is a pure function of the
  command, the environment and the liveness of the paired receiver.
* Rust panics (`expect` / `unwrap`) are the `RunResult.panicked`
  constructor, distinct from `Except.error` returns.
* The oneshot channel content is `Option Exit`: `some e` when the sender
  transferred `e`, `none` when the sender was dropped without sending.
* Log output (`error!`) is collected as a list of strings.
* The interleaving of a `start` task and a `wait` task is a small-step
  transition system `Step` used for the ordering guarantee.
-/

namespace Monitor

/-- `std::io::ErrorKind` values that the unit uses or propagates. -/
inductive ErrorKind where
  | notFound
  | permissionDenied
  | connectionRefused
  | brokenPipe
  | otherError
  deriving DecidableEq, Repr

/-- A process specification (`tokio::process::Command`): opaque to the
unit except that its debug rendering appears in log messages. -/
structure Command where
  program : String
  args : List String
  deriving DecidableEq, Repr

/-- `std::process::ExitStatus`: the raw termination status; `code` is
`some c` when the process exited with numeric code `c`, `none` when no
numeric code is available (e.g. killed by a signal). -/
structure ExitStatus where
  code : Option Int
  deriving DecidableEq, Repr

/-- `std::process::Output`: captured stdout/stderr bytes plus the raw
exit status. -/
structure Output where
  status : ExitStatus
  stdout : List Nat
  stderr : List Nat
  deriving DecidableEq, Repr

/-- The `Exit` record sent through the channel: timestamp, pid, status. -/
structure Exit where
  ts : Int
  pid : Nat
  status : Int
  deriving DecidableEq, Repr

/-- A spawned child process handle (`tokio::process::Child`): `id`
returns the OS pid, or `none` when the identifier is unavailable. -/
structure Child where
  id : Option Nat
  deriving DecidableEq, Repr

/-- The OS behaviour visible to one `start` invocation: the result of
`cmd.spawn()`, the result of `wait_with_output().await`, a wall clock
(`OffsetDateTime::now_utc`) sampled by tick, and the tick at which
termination is observed.  `start` is invoked at tick `0`. -/
structure OsEnv where
  spawn : Except ErrorKind Child
  waitWithOutput : Except ErrorKind Output
  clock : Nat → Int
  waitTick : Nat

deriving instance DecidableEq for Except

/-- Result of running a Rust body that may panic. -/
inductive RunResult (α : Type) where
  | panicked (msg : String)
  | ok (a : α)
  deriving DecidableEq, Repr

/-- Everything one `start` invocation produces: the value returned to
the caller, the `Exit` record it constructed (if it got that far), the
channel content after the send attempt, and the log lines emitted. -/
structure StartOutcome where
  ret : Except ErrorKind Output
  built : Option Exit
  sent : Option Exit
  logs : List String
  deriving DecidableEq, Repr

/-- Debug rendering of a command, as interpolated into the first
`error!` line (`{:?}` on `tokio::process::Command`). -/
def Command.render (c : Command) : String :=
  c.program ++ " " ++ String.intercalate " " c.args

/-- Debug rendering of the send error, which carries back the `Exit`
value that could not be transferred (`{:?}` on `SendError<Exit>`). -/
def Exit.render (e : Exit) : String :=
  "Exit \x7b ts: " ++ toString e.ts ++ ", pid: " ++ toString e.pid ++
    ", status: " ++ toString e.status ++ " \x7d"

/-- `ProcessMonitor::start` default body.  `rxAlive` tells whether the
paired `Receiver` still exists at the send attempt (`tx.send` fails
exactly when it does not).  Mirrors the source line by line:
spawn (`?`), `id().expect(..)`, `wait_with_output().await?`,
`now_utc()`, build `Exit` with `status.code().unwrap()`, `tx.send`,
and on send failure log twice and return `ConnectionRefused`. -/
def start (cmd : Command) (env : OsEnv) (rxAlive : Bool) :
    RunResult StartOutcome :=
  match env.spawn with
  | .error e => .ok ⟨.error e, none, none, []⟩
  | .ok chi =>
    match chi.id with
    | none => .panicked "failed to take pid of the container process."
    | some pid =>
      match env.waitWithOutput with
      | .error e => .ok ⟨.error e, none, none, []⟩
      | .ok out =>
        let ts := env.clock env.waitTick
        match out.status.code with
        | none => .panicked "called Option::unwrap on a None value"
        | some st =>
          let ex : Exit := ⟨ts, pid, st⟩
          if rxAlive then
            .ok ⟨.ok out, some ex, some ex, []⟩
          else
            .ok ⟨.error .connectionRefused, some ex, none,
              ["command " ++ cmd.render ++ " exited but receiver dropped.",
               "couldn't send messages: " ++ ex.render]⟩

/-- `ProcessMonitor::wait` default body: await the receiver; on a sent
value return it, on a dropped sender log and return `BrokenPipe`. -/
def wait (chan : Option Exit) : Except ErrorKind Exit × List String :=
  match chan with
  | some e => (.ok e, [])
  | none => (.error .brokenPipe, ["sender dropped."])

/-- The trait `ProcessMonitor` as a record of its two operations, each
defaulting to the default method body above. -/
structure ProcessMonitorImpl where
  start : Command → OsEnv → Bool → RunResult StartOutcome := Monitor.start
  wait : Option Exit → Except ErrorKind Exit × List String := Monitor.wait

/-- `impl ProcessMonitor for DefaultMonitor {}`: the default monitor
overrides neither operation. -/
def DefaultMonitor : ProcessMonitorImpl := {}

/-- `DefaultMonitor::new`: `pub const fn new() -> Self { Self {} }`. -/
def DefaultMonitor.new : ProcessMonitorImpl := DefaultMonitor

/-- Projection of the value a `start` run returned to its caller
(`none` when the run panicked). -/
def outcomeRet (r : RunResult StartOutcome) :
    Option (Except ErrorKind Output) :=
  match r with
  | .ok o => some o.ret
  | .panicked _ => none

/-! ### Interleaving model for the `start` / `wait` tasks

The two default bodies run as separate tasks; the only interaction is
the oneshot channel.  `Phase` tracks how far the `start` task has
progressed: `spawned` after `cmd.spawn()`, `collected` after
`wait_with_output().await` (OS-level termination observed and output
fully collected), `sentExit` after `tx.send` placed the record in the
channel.  `recv` models the `wait` task completing its `rx.await`. -/

inductive Phase where
  | idle
  | spawned
  | collected
  | sentExit
  deriving DecidableEq, Repr

/-- Joint state of a `start` task, the channel, and a `wait` task. -/
structure TaskState where
  phase : Phase
  chan : Option Exit
  received : Option Exit
  deriving DecidableEq, Repr

/-- One scheduler step of the interleaved system. -/
inductive Step : TaskState → TaskState → Prop where
  | spawn (c r) : Step ⟨.idle, c, r⟩ ⟨.spawned, c, r⟩
  | collect (c r) : Step ⟨.spawned, c, r⟩ ⟨.collected, c, r⟩
  | send (e r) : Step ⟨.collected, none, r⟩ ⟨.sentExit, some e, r⟩
  | recv (p e) : Step ⟨p, some e, none⟩ ⟨p, some e, some e⟩

/-- Both tasks pending, channel empty. -/
def initState : TaskState := ⟨.idle, none, none⟩

/-- States the interleaved system can reach from the initial state. -/
def Reachable (s : TaskState) : Prop :=
  Relation.ReflTransGen Step initState s

/-! ### Concrete inputs used by witnesses and counterexamples -/

/-- A sample process specification. -/
def cmd0 : Command := ⟨"runc", ["run", "mycontainer"]⟩

/-- A sample collected output: exit code 0, stdout bytes "ok". -/
def out0 : Output := ⟨⟨some 0⟩, [111, 107], []⟩

/-- An environment in which the process spawns with pid 42, terminates
with code 0, and termination is observed at tick 5 of an identity
clock. -/
def env0 : OsEnv := ⟨.ok ⟨some 42⟩, .ok out0, fun n => (n : Int), 5⟩

/-- The `Exit` record `start` builds in `env0`. -/
def ex0 : Exit := ⟨5, 42, 0⟩

/-- An environment in which the pid is unavailable after spawn. -/
def env1 : OsEnv := ⟨.ok ⟨none⟩, .ok out0, fun n => (n : Int), 5⟩

/-- An environment in which the process is killed by a signal: the raw
status carries no numeric exit code. -/
def env2 : OsEnv :=
  ⟨.ok ⟨some 42⟩, .ok ⟨⟨none⟩, [], []⟩, fun n => (n : Int), 5⟩

/-! ### Helper lemmas -/

/-- On the success path (spawn succeeds, pid available, termination with
a numeric code), `start` is fully characterised for both a live and a
dropped receiver. -/
theorem start_success_eq (cmd : Command) (env : OsEnv) (chi : Child)
    (p : Nat) (out : Output) (st : Int)
    (h1 : env.spawn = .ok chi) (h2 : chi.id = some p)
    (h3 : env.waitWithOutput = .ok out) (h4 : out.status.code = some st) :
    start cmd env true =
      .ok ⟨.ok out, some ⟨env.clock env.waitTick, p, st⟩,
           some ⟨env.clock env.waitTick, p, st⟩, []⟩ ∧
    start cmd env false =
      .ok ⟨.error .connectionRefused,
           some ⟨env.clock env.waitTick, p, st⟩, none,
           ["command " ++ cmd.render ++ " exited but receiver dropped.",
            "couldn't send messages: " ++
              Exit.render ⟨env.clock env.waitTick, p, st⟩]⟩ := by
  constructor <;> simp [start, h1, h2, h3, h4]

/-- Whenever a `start` run constructed an `Exit` record, its timestamp
is the clock reading at the tick where termination was observed. -/
theorem built_ts (cmd : Command) (env : OsEnv) (rxAlive : Bool)
    (o : StartOutcome) (ex : Exit)
    (h5 : start cmd env rxAlive = .ok o) (h6 : o.built = some ex) :
    ex.ts = env.clock env.waitTick := by
  cases hs : env.spawn with
  | error e =>
    simp [start, hs] at h5
    subst h5
    simp at h6
  | ok chi =>
    cases hid : chi.id with
    | none => simp [start, hs, hid] at h5
    | some p =>
      cases hw : env.waitWithOutput with
      | error e =>
        simp [start, hs, hid, hw] at h5
        subst h5
        simp at h6
      | ok out =>
        cases hc : out.status.code with
        | none => simp [start, hs, hid, hw, hc] at h5
        | some st =>
          cases rxAlive <;> simp [start, hs, hid, hw, hc] at h5 <;>
            subst h5 <;> simp at h6 <;> subst h6 <;> rfl

/-- Invariant of the interleaved system: a full channel means the
`start` task has passed its send point, and a received value is still
the channel content. -/
theorem reachable_inv (s : TaskState) (h : Reachable s) :
    (∀ e, s.chan = some e → s.phase = .sentExit) ∧
    (∀ e, s.received = some e → s.chan = some e) := by
  induction h with
  | refl => simp [initState]
  | tail h1 hstep ih =>
    cases hstep with
    | spawn c r =>
      refine ⟨fun e he => ?_, ih.2⟩
      have := ih.1 e he
      simp at this
    | collect c r =>
      refine ⟨fun e he => ?_, ih.2⟩
      have := ih.1 e he
      simp at this
    | send e r =>
      refine ⟨fun e' _ => rfl, fun e' he' => ?_⟩
      have := ih.2 e' he'
      simp at this
    | recv p e =>
      refine ⟨fun e' _ => ih.1 e rfl, fun e' he' => ?_⟩
      simp at he'
      simp [he']

/-! ### Claims -/

/-- C1, counterexample: in `env0` the process terminates and its output
`out0` is fully collected, yet with the receiver dropped `start` returns
a `ConnectionRefused` error to its caller, not the collected output — so
the return value is not independent of the transfer's fate. -/
theorem start_output_not_independent_cex :
    env0.waitWithOutput = .ok out0 ∧
    outcomeRet (start cmd0 env0 false) = some (.error .connectionRefused) ∧
    outcomeRet (start cmd0 env0 false) ≠ some (.ok out0) :=
  ⟨rfl, rfl, by decide⟩

/-- C1, amended: on the success path, `start` returns the collected
process output to its caller exactly when the transfer through the
producer endpoint succeeds; when the transfer fails (receiver dropped),
`start` instead returns a connection-refused error and the collected
output is discarded. -/
theorem start_output_dependent_on_transfer (cmd : Command) (env : OsEnv)
    (chi : Child) (p : Nat) (out : Output) (st : Int)
    (h1 : env.spawn = .ok chi) (h2 : chi.id = some p)
    (h3 : env.waitWithOutput = .ok out) (h4 : out.status.code = some st) :
    outcomeRet (start cmd env true) = some (.ok out) ∧
    outcomeRet (start cmd env false) = some (.error .connectionRefused) := by
  have h := start_success_eq cmd env chi p out st h1 h2 h3 h4
  constructor <;> simp [outcomeRet, h.1, h.2]

/-- Witness for the amended C1 at a concrete input. -/
theorem start_output_dependent_on_transfer_witness :
    outcomeRet (start cmd0 env0 true) = some (.ok out0) ∧
    outcomeRet (start cmd0 env0 false) = some (.error .connectionRefused) :=
  start_output_dependent_on_transfer cmd0 env0 ⟨some 42⟩ 42 out0 0
    rfl rfl rfl rfl

/-- C2: for every successfully completed process, the transferred
`Exit` record's `pid` is the OS identifier captured at spawn time
(before any wait) and its `status` is the numeric termination code of
the collected output. -/
theorem exit_pid_and_status_faithful (cmd : Command) (env : OsEnv)
    (rxAlive : Bool) (chi : Child) (p : Nat) (out : Output) (st : Int)
    (o : StartOutcome) (ex : Exit)
    (h1 : env.spawn = .ok chi) (h2 : chi.id = some p)
    (h3 : env.waitWithOutput = .ok out) (h4 : out.status.code = some st)
    (h5 : start cmd env rxAlive = .ok o) (h6 : o.sent = some ex) :
    ex.pid = p ∧ ex.status = st := by
  have h := start_success_eq cmd env chi p out st h1 h2 h3 h4
  cases rxAlive
  · rw [h.2] at h5
    injection h5 with ho
    subst ho
    simp at h6
  · rw [h.1] at h5
    injection h5 with ho
    subst ho
    simp at h6
    subst h6
    exact ⟨rfl, rfl⟩

/-- Witness for C2 at a concrete input. -/
theorem exit_pid_and_status_faithful_witness :
    ex0.pid = 42 ∧ ex0.status = 0 :=
  exit_pid_and_status_faithful cmd0 env0 true ⟨some 42⟩ 42 out0 0
    ⟨.ok out0, some ex0, some ex0, []⟩ ex0 rfl rfl rfl rfl rfl rfl

/-- C3: when the producer endpoint is dropped without a transferred
value, `wait` returns a broken-pipe error (after logging) rather than
suspending forever — in the embedding, `wait` is total and maps the
empty channel to `BrokenPipe`. -/
theorem wait_abandoned_channel :
    wait (none : Option Exit) =
      (.error .brokenPipe, ["sender dropped."]) := rfl

/-- C4: when the process terminated and its output was collected but
the receiver was already dropped, `start` logs the command and the
transfer error and fails with `ConnectionRefused`. -/
theorem start_delivery_refused (cmd : Command) (env : OsEnv)
    (chi : Child) (p : Nat) (out : Output) (st : Int)
    (h1 : env.spawn = .ok chi) (h2 : chi.id = some p)
    (h3 : env.waitWithOutput = .ok out) (h4 : out.status.code = some st) :
    start cmd env false =
      .ok ⟨.error .connectionRefused,
           some ⟨env.clock env.waitTick, p, st⟩, none,
           ["command " ++ cmd.render ++ " exited but receiver dropped.",
            "couldn't send messages: " ++
              Exit.render ⟨env.clock env.waitTick, p, st⟩]⟩ :=
  (start_success_eq cmd env chi p out st h1 h2 h3 h4).2

/-- Witness for C4 at a concrete input. -/
theorem start_delivery_refused_witness :
    start cmd0 env0 false =
      .ok ⟨.error .connectionRefused, some ex0, none,
           ["command " ++ cmd0.render ++ " exited but receiver dropped.",
            "couldn't send messages: " ++ ex0.render]⟩ :=
  start_delivery_refused cmd0 env0 ⟨some 42⟩ 42 out0 0 rfl rfl rfl rfl

/-- C5: given a successful spawn and a collected output, `start` panics
(aborts, rather than returning an error) precisely when the pid is
unavailable after spawn or the termination yields no numeric status
code; under the two preconditions both panic branches are unreachable. -/
theorem start_panics_iff (cmd : Command) (env : OsEnv) (rxAlive : Bool)
    (chi : Child) (out : Output)
    (h1 : env.spawn = .ok chi) (h3 : env.waitWithOutput = .ok out) :
    (∃ m, start cmd env rxAlive = .panicked m) ↔
      (chi.id = none ∨ out.status.code = none) := by
  constructor
  · rintro ⟨m, hm⟩
    by_contra hcon
    push_neg at hcon
    obtain ⟨hid, hcode⟩ := hcon
    obtain ⟨p, hp⟩ := Option.ne_none_iff_exists.mp hid
    obtain ⟨st, hst⟩ := Option.ne_none_iff_exists.mp hcode
    cases rxAlive <;> simp [start, h1, hp.symm, h3, hst.symm] at hm
  · intro h
    cases hid : chi.id with
    | none =>
      exact ⟨"failed to take pid of the container process.",
        by simp [start, h1, hid]⟩
    | some p =>
      rcases h with h | h
      · rw [hid] at h
        exact absurd h (by simp)
      · exact ⟨"called Option::unwrap on a None value",
          by simp [start, h1, hid, h3, h]⟩

/-- Witness for C5: a missing pid (`env1`) and a signal-killed child
(`env2`) both make `start` panic. -/
theorem start_panics_iff_witness :
    (∃ m, start cmd0 env1 true = .panicked m) ∧
    (∃ m, start cmd0 env2 true = .panicked m) :=
  ⟨(start_panics_iff cmd0 env1 true ⟨none⟩ out0 rfl rfl).mpr (Or.inl rfl),
   (start_panics_iff cmd0 env2 true ⟨some 42⟩ ⟨⟨none⟩, [], []⟩
      rfl rfl).mpr (Or.inr rfl)⟩

/-- C6: in every interleaving, a value received by the `wait` task is
the channel content, the `start` task has then already passed its send
point, and any step that fills the channel runs from the `collected`
phase — i.e. only after the OS-level wait and output collection are
complete. -/
theorem exit_transfer_after_collection (s : TaskState) (e : Exit)
    (h : Reachable s) (hr : s.received = some e) :
    s.chan = some e ∧ s.phase = .sentExit ∧
    (∀ u v x, Step u v → u.chan = none → v.chan = some x →
      u.phase = .collected) := by
  have inv := reachable_inv s h
  have hc := inv.2 e hr
  refine ⟨hc, inv.1 e hc, fun u v x hstep hu hv => ?_⟩
  cases hstep <;> simp_all

/-- Witness for C6 on a concrete four-step interleaving. -/
theorem exit_transfer_after_collection_witness :
    (⟨.sentExit, some ex0, some ex0⟩ : TaskState).chan = some ex0 ∧
    (⟨.sentExit, some ex0, some ex0⟩ : TaskState).phase = .sentExit := by
  have hreach :
      Relation.ReflTransGen Step initState
        ⟨.sentExit, some ex0, some ex0⟩ :=
    Relation.ReflTransGen.tail
      (Relation.ReflTransGen.tail
        (Relation.ReflTransGen.tail
          (Relation.ReflTransGen.tail Relation.ReflTransGen.refl
            (Step.spawn none none))
          (Step.collect none none))
        (Step.send ex0 none))
      (Step.recv Phase.sentExit ex0)
  exact ⟨(exit_transfer_after_collection _ ex0 hreach rfl).1,
         (exit_transfer_after_collection _ ex0 hreach rfl).2.1⟩

/-- C7: an `Exit` record transferred by `start` is returned verbatim by
`wait` on the paired consumer endpoint. -/
theorem handoff_round_trip (cmd : Command) (env : OsEnv) (rxAlive : Bool)
    (o : StartOutcome) (ex : Exit)
    (h5 : start cmd env rxAlive = .ok o) (h6 : o.sent = some ex) :
    wait o.sent = (.ok ex, []) := by
  rw [h6]
  rfl

/-- Witness for C7 at a concrete input. -/
theorem handoff_round_trip_witness :
    wait ((⟨.ok out0, some ex0, some ex0, []⟩ : StartOutcome).sent) =
      (.ok ex0, []) :=
  handoff_round_trip cmd0 env0 true
    ⟨.ok out0, some ex0, some ex0, []⟩ ex0 rfl rfl

/-- C8: with a monotone wall clock, the timestamp of any `Exit` record
constructed by `start` is at least the clock reading at the instant
`start` was invoked (tick 0). -/
theorem exit_timestamp_ge_invocation (cmd : Command) (env : OsEnv)
    (rxAlive : Bool) (o : StartOutcome) (ex : Exit)
    (hmono : ∀ i j : Nat, i ≤ j → env.clock i ≤ env.clock j)
    (h5 : start cmd env rxAlive = .ok o) (h6 : o.built = some ex) :
    env.clock 0 ≤ ex.ts := by
  rw [built_ts cmd env rxAlive o ex h5 h6]
  exact hmono 0 env.waitTick (Nat.zero_le _)

/-- Witness for C8 at a concrete input with the identity clock. -/
theorem exit_timestamp_ge_invocation_witness :
    env0.clock 0 ≤ ex0.ts :=
  exit_timestamp_ge_invocation cmd0 env0 true
    ⟨.ok out0, some ex0, some ex0, []⟩ ex0
    (fun i j hij => by simp [env0]; exact_mod_cast hij) rfl rfl

/-- C9: the default monitor overrides neither operation — its `start`
and `wait` are exactly the default trait bodies — and its constructor
`new` trivially yields the stateless value. -/
theorem default_monitor_no_overrides :
    DefaultMonitor.start = Monitor.start ∧
    DefaultMonitor.wait = Monitor.wait ∧
    DefaultMonitor.new = DefaultMonitor :=
  ⟨rfl, rfl, rfl⟩

/-- C10: for a successful `start`, the `status` of the transferred
`Exit` record is the numeric exit code contained in the raw exit status
of the very `Output` value returned to the caller. -/
theorem sent_status_matches_returned_output (cmd : Command)
    (env : OsEnv) (chi : Child) (p : Nat) (out : Output) (st : Int)
    (o : StartOutcome) (ex : Exit)
    (h1 : env.spawn = .ok chi) (h2 : chi.id = some p)
    (h3 : env.waitWithOutput = .ok out) (h4 : out.status.code = some st)
    (h5 : start cmd env true = .ok o) (h6 : o.sent = some ex) :
    o.ret = .ok out ∧ out.status.code = some ex.status := by
  have h := (start_success_eq cmd env chi p out st h1 h2 h3 h4).1
  rw [h] at h5
  injection h5 with ho
  subst ho
  simp at h6
  subst h6
  exact ⟨rfl, h4⟩

/-- Witness for C10 at a concrete input. -/
theorem sent_status_matches_returned_output_witness :
    (⟨.ok out0, some ex0, some ex0, []⟩ : StartOutcome).ret = .ok out0 ∧
    out0.status.code = some ex0.status :=
  sent_status_matches_returned_output cmd0 env0 ⟨some 42⟩ 42 out0 0
    ⟨.ok out0, some ex0, some ex0, []⟩ ex0 rfl rfl rfl rfl rfl rfl

end Monitor
